import Mathlib

set_option maxRecDepth 40000

/-
Verification development for the arc object-storage core (src/libarc/main.py).

Bytes are modelled as natural numbers below 256, byte strings as List Nat.
Machine 32-bit words in the hash function are Nat taken modulo 2 ^ 32.
The filesystem is modelled explicitly where an operation inspects it.
-/

/- ===== SHA-1 (hashlib.sha1(...).hexdigest() as used by object_write) ===== -/

def m32 : Nat := 4294967296

def rotl32 (k n : Nat) : Nat := ((n <<< k) ||| (n >>> (32 - k))) % m32

def sha1F (t b c d : Nat) : Nat :=
  if t < 20 then (b &&& c) ||| ((b ^^^ 4294967295) &&& d)
  else if t < 40 then b ^^^ c ^^^ d
  else if t < 60 then (b &&& c) ||| (b &&& d) ||| (c &&& d)
  else b ^^^ c ^^^ d

def sha1K (t : Nat) : Nat :=
  if t < 20 then 1518500249
  else if t < 40 then 1859775393
  else if t < 60 then 2400959708
  else 3395469782

/-- One SHA-1 round on the five-word state, with round index t and schedule word w. -/
def sha1Step (t w : Nat) : Nat × Nat × Nat × Nat × Nat → Nat × Nat × Nat × Nat × Nat
  | (a, b, c, d, e) =>
    ((rotl32 5 a + sha1F t b c d + e + sha1K t + w) % m32, a, rotl32 30 b, c, d)

def sha1Rounds : Nat → List Nat → Nat × Nat × Nat × Nat × Nat → Nat × Nat × Nat × Nat × Nat
  | _, [], st => st
  | t, w :: ws, st => sha1Rounds (t + 1) ws (sha1Step t w st)

/-- Message-schedule extension; ws holds the words produced so far, newest first. -/
def sha1Extend : List Nat → Nat → List Nat
  | ws, 0 => ws
  | ws, n + 1 =>
    sha1Extend
      (rotl32 1 (ws.getD 2 0 ^^^ ws.getD 7 0 ^^^ ws.getD 13 0 ^^^ ws.getD 15 0) :: ws) n

def sha1Schedule (block : List Nat) : List Nat := (sha1Extend block.reverse 64).reverse

def bytesToWords : List Nat → List Nat
  | b0 :: b1 :: b2 :: b3 :: rest =>
    (b0 * 16777216 + b1 * 65536 + b2 * 256 + b3) :: bytesToWords rest
  | _ => []

def sha1ProcessBlock (h : Nat × Nat × Nat × Nat × Nat) (block : List Nat) :
    Nat × Nat × Nat × Nat × Nat :=
  let w := sha1Schedule (bytesToWords block)
  let s := sha1Rounds 0 w h
  ((h.1 + s.1) % m32, (h.2.1 + s.2.1) % m32, (h.2.2.1 + s.2.2.1) % m32,
    (h.2.2.2.1 + s.2.2.2.1) % m32, (h.2.2.2.2 + s.2.2.2.2) % m32)

/-- Big-endian byte expansion of n into k bytes. -/
def beBytes : Nat → Nat → List Nat
  | 0, _ => []
  | k + 1, n => (n >>> (8 * k)) % 256 :: beBytes k n

/-- SHA-1 padding: append 0x80, zero bytes up to 56 mod 64, then the 64-bit bit length. -/
def sha1Pad (msg : List Nat) : List Nat :=
  msg ++ 128 :: (List.replicate ((119 - msg.length % 64) % 64) 0 ++ beBytes 8 (8 * msg.length))

def toBlocksAux : List Nat → Nat → List Nat → List (List Nat)
  | cur, _, [] => if cur.isEmpty then [] else [cur]
  | cur, k, b :: rest =>
    if k ≤ 1 then (cur ++ [b]) :: toBlocksAux [] 64 rest
    else toBlocksAux (cur ++ [b]) (k - 1) rest

/-- Split a byte string into 64-byte blocks (padded input is always a multiple of 64). -/
def toBlocks (l : List Nat) : List (List Nat) := toBlocksAux [] 64 l

def sha1InitState : Nat × Nat × Nat × Nat × Nat :=
  (1732584193, 4023233417, 2562383102, 271733878, 3285377520)

def sha1Bytes (msg : List Nat) : List Nat :=
  let h := (toBlocks (sha1Pad msg)).foldl sha1ProcessBlock sha1InitState
  beBytes 4 h.1 ++ beBytes 4 h.2.1 ++ beBytes 4 h.2.2.1 ++ beBytes 4 h.2.2.2.1 ++
    beBytes 4 h.2.2.2.2

def hexChar (n : Nat) : Char := if n < 10 then Char.ofNat (48 + n) else Char.ofNat (87 + n)

def bytesToHex (l : List Nat) : String :=
  String.mk (l.flatMap fun b => [hexChar (b / 16), hexChar (b % 16)])

/-- Hexadecimal SHA-1 digest of a byte string, as hashlib.sha1(bytes).hexdigest(). -/
def sha1hex (msg : List Nat) : String := bytesToHex (sha1Bytes msg)

/-- Known vector: the SHA-1 of the empty message. -/
example : sha1hex [] = "da39a3ee5e6b4b0d3255bfef95601890afd80709" := by decide

/-- Known vector: SHA-1 of "abc" (bytes 97 98 99). -/
example : sha1hex [97, 98, 99] = "a9993e364706816aba3e25717850c26c9cd0d89d" := by decide

/- ===== Errors raised by the Python source (exception kinds, plus the two
   runtime errors Python itself raises on the source's slips) ===== -/

inductive ArcError where
  /-- GitRepository.__init__: "Not a Git repository" -/
  | notARepository : ArcError
  /-- GitRepository.__init__: "Configuration file missing" -/
  | missingConfig : ArcError
  /-- GitRepository.__init__: "Unsupported repository format version" -/
  | unsupportedFormatVersion : ArcError
  /-- configparser error when core.repositoryformatversion is absent or non-integer -/
  | configKeyError : ArcError
  /-- configparser.ConfigParser.read raising MissingSectionHeaderError or
      ParsingError on an existing but malformed config file -/
  | configParseError : ArcError
  /-- repo_dir: "Not a directory", and repo_create: "is not a directory" -/
  | notADirectory : ArcError
  /-- repo_create: "is not empty" -/
  | notEmpty : ArcError
  /-- Python FileNotFoundError from os.listdir on a nonexistent directory -/
  | fileNotFoundError : ArcError
  /-- Python TypeError from os.path.isfile(None) -/
  | typeErrorNonePath : ArcError
  /-- Python ValueError from int() on bytes that are not a decimal numeral -/
  | headerParseError : ArcError
  /-- object_read: "Malformed object {sha}: bad length" -/
  | malformedObject (sha : String) : ArcError
  /-- object_read: "Unknown type ... for object {sha}" -/
  | unknownType (sha : String) : ArcError
  /-- Python NameError: the classes GitCommit, GitTree, GitTag are never defined -/
  | nameErrorUndefined : ArcError
  /-- Python AttributeError: self.blobdata read before any assignment -/
  | attributeError : ArcError
deriving DecidableEq, Repr

/-- On-disk state of one path: missing, a regular file, or a directory. -/
inductive FileKind where
  | absent : FileKind
  | file : FileKind
  | dir : FileKind
deriving DecidableEq, Repr

/- ===== GitBlob (class GitBlob(GitObject)) =====
   GitObject.__init__(data): when data is not None it calls deserialize(data),
   which assigns self.blobdata; when data is None it calls init(), which GitBlob
   inherits from GitObject as a no-op, so the blobdata attribute stays unset.
   The unset attribute is modelled as none. -/

structure GitBlob where
  blobdata : Option (List Nat)
deriving DecidableEq, Repr

/-- The class attribute fmt = b'blob'. -/
def blobFmt : List Nat := [98, 108, 111, 98]

/-- GitObject.__init__ specialised to GitBlob: deserialize stores the data
    unmodified; default construction leaves blobdata unset. -/
def gitBlobNew (data : Option (List Nat)) : GitBlob :=
  match data with
  | some d => { blobdata := some d }
  | none => { blobdata := none }

/-- GitBlob.serialize: returns self.blobdata; reading the attribute of a
    default-constructed blob raises AttributeError. -/
def GitBlob.serializeB (b : GitBlob) : Except ArcError (List Nat) :=
  match b.blobdata with
  | some d => Except.ok d
  | none => Except.error ArcError.attributeError

/- ===== object_write ===== -/

/-- str(n).encode(): decimal ASCII digits of n. The first argument is fuel,
    always called with enough for every digit. -/
def natDecDigitsAux : Nat → Nat → List Nat
  | 0, _ => []
  | fuel + 1, n => if n < 10 then [n + 48] else (n % 10 + 48) :: natDecDigitsAux fuel (n / 10)

def natToDecBytes (n : Nat) : List Nat := (natDecDigitsAux (n + 1) n).reverse

example : natToDecBytes 0 = [48] := by decide
example : natToDecBytes 312 = [51, 49, 50] := by decide

/-- The header-framed encoding built by object_write:
    obj.fmt + b' ' + str(len(data)).encode() + b'\x00' + data. -/
def encodeObject (fmt data : List Nat) : List Nat :=
  fmt ++ 32 :: (natToDecBytes data.length ++ 0 :: data)

/-- The fan-out storage path: "objects", sha[0:2], sha[2:]. -/
def objPath (sha : String) : String :=
  "objects/" ++ sha.take 2 ++ "/" ++ sha.drop 2

/-- The object files of a repository, as a map from path to stored bytes.
    Directory structure is idealised (repo_file with mkdir=True creates the
    fan-out directory and cannot return None). -/
def Store : Type := String → Option (List Nat)

/-- object_write(obj, repo): hashes the uncompressed encoding, and when a
    repository is supplied writes the zlib-compressed encoding at the fan-out
    path only if no file exists there. zlib.compress is the parameter c; the
    object's serialize() has already produced data. -/
def object_write (c : List Nat → List Nat) (fmt data : List Nat) (repo : Bool)
    (disk : Store) : String × Store :=
  let result := encodeObject fmt data
  let sha := sha1hex result
  if repo then
    match disk (objPath sha) with
    | none => (sha, fun q => if q = objPath sha then some (c result) else disk q)
    | some _ => (sha, disk)
  else (sha, disk)

/- ===== object_read ===== -/

/-- True of a byte that is an ASCII decimal digit. -/
def isDigitByte (b : Nat) : Bool := 48 ≤ b && b ≤ 57

/-- int(bytes.decode("ascii")) on a digit string: some value when the bytes are
    a nonempty run of decimal digits, none otherwise (Python raises ValueError;
    a leading sign or inner whitespace is likewise folded into the failure case,
    and the one leading space of raw[x:y], stripped by int(), is dropped by the
    caller before this function runs). -/
def parseDecimal (l : List Nat) : Option Nat :=
  if !l.isEmpty && l.all isDigitByte then
    some (l.foldl (fun a b => 10 * a + (b - 48)) 0)
  else none

/-- raw.find(byte, start): index of the first occurrence at position >= start. -/
def bytesFindFrom (l : List Nat) (b : Nat) (s : Nat) : Option Nat :=
  (List.findIdx? (fun a => a == b) (l.drop s)).map (· + s)

def commitFmt : List Nat := [99, 111, 109, 109, 105, 116]
def treeFmt : List Nat := [116, 114, 101, 101]
def tagFmt : List Nat := [116, 97, 103]

/-- The body of object_read after decompression: raw is
    zlib.decompress(f.read()). x is the first space, y the first NUL at or
    after x, the bytes strictly between them (int() strips the leading space
    itself) are the declared size, checked against len(raw)-y-1; the type tag
    raw[0:x] picks the constructor. GitCommit, GitTree and GitTag are referenced
    but never defined, so those arms raise NameError when Python evaluates the
    class name. -/
def object_read_raw (sha : String) (raw : List Nat) : Except ArcError GitBlob :=
  match List.findIdx? (fun a => a == 32) raw with
  | none => Except.error ArcError.headerParseError
  | some x =>
    match bytesFindFrom raw 0 x with
    | none => Except.error ArcError.headerParseError
    | some y =>
      match parseDecimal ((raw.drop (x + 1)).take (y - x - 1)) with
      | none => Except.error ArcError.headerParseError
      | some size =>
        if size ≠ raw.length - y - 1 then Except.error (ArcError.malformedObject sha)
        else
          let fmt := raw.take x
          if fmt = commitFmt then Except.error ArcError.nameErrorUndefined
          else if fmt = treeFmt then Except.error ArcError.nameErrorUndefined
          else if fmt = tagFmt then Except.error ArcError.nameErrorUndefined
          else if fmt = blobFmt then Except.ok (gitBlobNew (some (raw.drop (y + 1))))
          else Except.error (ArcError.unknownType sha)

/-- Filesystem state object_read consults for one repository and hash: the
    fan-out directory .git/objects/sha[0:2] and the object file within it.
    objectFile holds the file's bytes after zlib decompression (the zlib
    round-trip itself is not modelled). -/
structure ObjFS where
  fanoutDir : FileKind
  objectFile : Option (List Nat)
deriving Repr

/-- object_read(repo, sha). repo_file probes the fan-out directory without
    mkdir: a missing directory makes repo_file return None, and
    os.path.isfile(None) then raises TypeError (os.path.isfile only swallows
    OSError and ValueError); an existing non-directory there raises the
    repo_dir "Not a directory" exception. With the directory present, a missing
    file returns None (no error), and an existing file is decompressed and
    decoded. -/
def object_read (fs : ObjFS) (sha : String) : Except ArcError (Option GitBlob) :=
  match fs.fanoutDir with
  | FileKind.file => Except.error ArcError.notADirectory
  | FileKind.absent => Except.error ArcError.typeErrorNonePath
  | FileKind.dir =>
    match fs.objectFile with
    | none => Except.ok none
    | some raw => (object_read_raw sha raw).map some

/- ===== GitRepository.__init__ ===== -/

/-- Filesystem state GitRepository.__init__ consults: the .git directory, the
    .git/config file, whether conf.read succeeds on that file (configparser
    raises on malformed content), and the parsed integer value of
    core.repositoryformatversion when the file exists and parses (none when
    the key is absent or its value is not an integer). -/
structure RepoFS where
  gitdir : FileKind
  configExists : Bool
  configParses : Bool
  configVersion : Option Int
deriving Repr

/-- repo_file(self, "config") inside __init__: repo_dir probes the gitdir
    itself (no mkdir). ok true: the config path was produced; ok false:
    repo_dir returned None so repo_file returns None; error: the gitdir exists
    and is not a directory. -/
def repoFileConfigProbe (fs : RepoFS) : Except ArcError Bool :=
  match fs.gitdir with
  | FileKind.dir => Except.ok true
  | FileKind.file => Except.error ArcError.notADirectory
  | FileKind.absent => Except.ok false

/-- GitRepository.__init__(path, force): without force requires an existing
    .git directory, a readable config, and repositoryformatversion 0. Whenever
    the config path was produced and the file exists, conf.read([cf]) runs —
    force or not — and raises on a file configparser cannot parse. -/
def gitRepositoryNew (fs : RepoFS) (force : Bool) : Except ArcError Unit :=
  if ¬ (force ∨ fs.gitdir = FileKind.dir) then Except.error ArcError.notARepository
  else
    match repoFileConfigProbe fs with
    | Except.error e => Except.error e
    | Except.ok cf =>
      if cf && fs.configExists then
        if !fs.configParses then Except.error ArcError.configParseError
        else if !force then
          match fs.configVersion with
          | none => Except.error ArcError.configKeyError
          | some v =>
            if v ≠ 0 then Except.error ArcError.unsupportedFormatVersion
            else Except.ok ()
        else Except.ok ()
      else if !force then Except.error ArcError.missingConfig
      else Except.ok ()

/- ===== repo_create (the validation guard) ===== -/

/-- Filesystem state repo_create consults before laying out the repository:
    the target path (worktree), the .git entry under it, the entries of .git
    when it is a directory, and the state of any .git/config file there (the
    forced GitRepository construction still reads it). The code never lists
    the worktree itself. -/
structure CreateFS where
  worktree : FileKind
  gitdir : FileKind
  gitdirEntries : List String
  configExists : Bool
  configParses : Bool
deriving Repr

/-- os.listdir(repo.gitdir): lists a directory, raises FileNotFoundError when
    the path is absent, NotADirectoryError (an OSError, modelled with the same
    notADirectory kind) when it is a regular file. -/
def listdirGitdir (fs : CreateFS) : Except ArcError (List String) :=
  match fs.gitdir with
  | FileKind.dir => Except.ok fs.gitdirEntries
  | FileKind.absent => Except.error ArcError.fileNotFoundError
  | FileKind.file => Except.error ArcError.notADirectory

/-- repo_create(path) up to the end of its validation: constructs
    GitRepository(path, True) (force skips the three checks but still reads an
    existing config file; the version value is never consulted under force),
    then checks the worktree. The emptiness test is
    "if not os.path.exists(repo.gitdir) and os.listdir(repo.gitdir)": when the
    gitdir does not exist the first conjunct is true and os.listdir is
    evaluated on the nonexistent path. Directory layout after a passing guard
    is outside this model. -/
def repo_create_checks (fs : CreateFS) : Except ArcError Unit :=
  match gitRepositoryNew
      { gitdir := fs.gitdir, configExists := fs.configExists,
        configParses := fs.configParses, configVersion := none } true with
  | Except.error e => Except.error e
  | Except.ok _ =>
    if fs.worktree ≠ FileKind.absent then
      if fs.worktree ≠ FileKind.dir then Except.error ArcError.notADirectory
      else if fs.gitdir = FileKind.absent then
        match listdirGitdir fs with
        | Except.error e => Except.error e
        | Except.ok entries =>
          if ¬ entries.isEmpty then Except.error ArcError.notEmpty
          else Except.ok ()
      else Except.ok ()
    else Except.ok ()

/- ===== Helper lemmas on the header layout ===== -/

theorem findIdx_append_first (b : Nat) (xs ys : List Nat) (i : Nat)
    (h : ∀ a ∈ xs, a ≠ b) :
    List.findIdx? (fun a => a == b) (xs ++ b :: ys) i = some (xs.length + i) := by
  induction xs generalizing i with
  | nil => simp [List.findIdx?_cons]
  | cons x xs ih =>
    have hx : (x == b) = false :=
      beq_eq_false_iff_ne.mpr (h x (List.mem_cons_self x xs))
    rw [List.cons_append, List.findIdx?_cons, hx]
    simp only [Bool.false_eq_true, if_false]
    rw [ih i.succ (fun a ha => h a (List.mem_cons_of_mem x ha))]
    congr 1
    simp only [List.length_cons]
    omega

theorem parseDecimal_digits {mid : List Nat} {size : Nat}
    (h : parseDecimal mid = some size) : ∀ a ∈ mid, 48 ≤ a ∧ a ≤ 57 := by
  intro a ha
  unfold parseDecimal at h
  split at h
  · rename_i hc
    rw [Bool.and_eq_true] at hc
    have := List.all_eq_true.mp hc.2 a ha
    simpa [isDigitByte, Bool.and_eq_true, decide_eq_true_eq] using this
  · exact absurd h (by simp)

/-- The decoding of a byte string in full header form: a type tag free of
    space bytes, the space, a digit run declaring size, the NUL, then the
    payload. -/
theorem object_read_raw_framed (sha : String) (pre mid rest : List Nat) (size : Nat)
    (hpre : ∀ a ∈ pre, a ≠ 32) (hparse : parseDecimal mid = some size) :
    object_read_raw sha (pre ++ 32 :: (mid ++ 0 :: rest)) =
      if size ≠ rest.length then Except.error (ArcError.malformedObject sha)
      else if pre = commitFmt then Except.error ArcError.nameErrorUndefined
      else if pre = treeFmt then Except.error ArcError.nameErrorUndefined
      else if pre = tagFmt then Except.error ArcError.nameErrorUndefined
      else if pre = blobFmt then Except.ok (gitBlobNew (some rest))
      else Except.error (ArcError.unknownType sha) := by
  have hdig := parseDecimal_digits hparse
  have hmid0 : ∀ a ∈ (32 :: mid : List Nat), a ≠ 0 := by
    intro a ha
    rcases List.mem_cons.mp ha with h1 | h1
    · omega
    · have := hdig a h1
      omega
  have h1 : List.findIdx? (fun a => a == 32) (pre ++ 32 :: (mid ++ 0 :: rest)) =
      some pre.length := by
    have := findIdx_append_first 32 pre (mid ++ 0 :: rest) 0 hpre
    simpa using this
  have h2 : bytesFindFrom (pre ++ 32 :: (mid ++ 0 :: rest)) 0 pre.length =
      some (pre.length + mid.length + 1) := by
    unfold bytesFindFrom
    rw [List.drop_left]
    have hshape : (32 :: (mid ++ 0 :: rest) : List Nat) = (32 :: mid) ++ 0 :: rest := by
      simp
    rw [hshape, findIdx_append_first 0 (32 :: mid) rest 0 hmid0]
    simp only [Option.map_some', List.length_cons, Option.some.injEq]
    omega
  have hsplit : pre ++ 32 :: (mid ++ 0 :: rest) = (pre ++ [32]) ++ (mid ++ 0 :: rest) := by
    simp
  have h3 : (((pre ++ 32 :: (mid ++ 0 :: rest)).drop (pre.length + 1)).take
      (pre.length + mid.length + 1 - pre.length - 1)) = mid := by
    rw [hsplit, List.drop_left' (by simp)]
    have : pre.length + mid.length + 1 - pre.length - 1 = mid.length := by omega
    rw [this, List.take_left]
  have h4 : (pre ++ 32 :: (mid ++ 0 :: rest)).length - (pre.length + mid.length + 1) - 1 =
      rest.length := by
    simp only [List.length_append, List.length_cons]
    omega
  have h5 : (pre ++ 32 :: (mid ++ 0 :: rest)).take pre.length = pre := List.take_left pre _
  have h6 : (pre ++ 32 :: (mid ++ 0 :: rest)).drop (pre.length + mid.length + 1 + 1) = rest := by
    have hshape2 : pre ++ 32 :: (mid ++ 0 :: rest) = ((pre ++ [32]) ++ (mid ++ [0])) ++ rest := by
      simp
    rw [hshape2, List.drop_left' (by simp; omega)]
  unfold object_read_raw
  simp only [h1, h2, h3, hparse, h4, h5, h6]

/- ===== Claims ===== -/

/-- C1: object_write returns the hexadecimal SHA-1 hash of the uncompressed
    header-framed encoding (type tag, space, decimal length, NUL, payload),
    computed before compression, whatever the repository argument; and with no
    repository supplied the store is left exactly as it was (no disk write). -/
theorem object_write_hash_and_dry_run (c : List Nat → List Nat) (fmt data : List Nat)
    (repo : Bool) (disk : Store) :
    (object_write c fmt data repo disk).1 =
        sha1hex (fmt ++ 32 :: (natToDecBytes data.length ++ 0 :: data)) ∧
      (object_write c fmt data false disk).2 = disk := by
  refine ⟨?_, rfl⟩
  cases repo
  · rfl
  · simp only [object_write]
    cases hd : disk (objPath (sha1hex (encodeObject fmt data))) <;>
      simp [hd, encodeObject]

/-- C2: decoding a stored object whose declared decimal length differs from the
    actual payload length after the NUL fails with MalformedObject carrying the
    hash; when the lengths agree no MalformedObject error is raised. -/
theorem object_read_length_validation (sha : String) (pre mid rest : List Nat)
    (size : Nat) (hpre : ∀ a ∈ pre, a ≠ 32) (hparse : parseDecimal mid = some size) :
    (size ≠ rest.length →
        object_read ⟨FileKind.dir, some (pre ++ 32 :: (mid ++ 0 :: rest))⟩ sha =
          Except.error (ArcError.malformedObject sha)) ∧
      (size = rest.length →
        ∀ s, object_read ⟨FileKind.dir, some (pre ++ 32 :: (mid ++ 0 :: rest))⟩ sha ≠
          Except.error (ArcError.malformedObject s)) := by
  have hf := object_read_raw_framed sha pre mid rest size hpre hparse
  constructor
  · intro hne
    show (object_read_raw sha (pre ++ 32 :: (mid ++ 0 :: rest))).map some = _
    rw [hf, if_pos hne]
    rfl
  · intro heq s
    show (object_read_raw sha (pre ++ 32 :: (mid ++ 0 :: rest))).map some ≠ _
    rw [hf, if_neg (not_not_intro heq)]
    split_ifs <;> simp [Except.map]

/-- C2 witness: a stored blob declaring length 3 over a 2-byte payload is
    malformed; the hash "61" is reported. -/
theorem object_read_length_validation_witness :
    object_read ⟨FileKind.dir, some ([98, 108, 111, 98] ++ 32 :: ([51] ++ 0 :: [97, 98]))⟩
        "61" = Except.error (ArcError.malformedObject "61") :=
  (object_read_length_validation "61" [98, 108, 111, 98] [51] [97, 98] 3
    (by decide) (by decide)).1 (by decide)

/-- C3: writing the same encoded bytes twice leaves exactly one file, at the
    derived fan-out path: the first write creates it when absent and touches no
    other path, the second write changes nothing, and a pre-existing file at
    that path is never rewritten. -/
theorem object_write_idempotent (c : List Nat → List Nat) (fmt data : List Nat)
    (disk : Store) :
    (object_write c fmt data true ((object_write c fmt data true disk).2)).2 =
        (object_write c fmt data true disk).2 ∧
      (disk (objPath (sha1hex (encodeObject fmt data))) = none →
        (object_write c fmt data true disk).2 (objPath (sha1hex (encodeObject fmt data))) =
            some (c (encodeObject fmt data)) ∧
          ∀ q, q ≠ objPath (sha1hex (encodeObject fmt data)) →
            (object_write c fmt data true disk).2 q = disk q) ∧
      ∀ b, disk (objPath (sha1hex (encodeObject fmt data))) = some b →
        (object_write c fmt data true disk).2 = disk := by
  cases hd : disk (objPath (sha1hex (encodeObject fmt data))) with
  | none =>
    refine ⟨?_, fun _ => ⟨?_, fun q hq => ?_⟩, fun b hb => by simp [hd] at hb⟩
    · simp only [object_write, hd]
      simp
    · simp only [object_write, hd]
      simp
    · simp only [object_write, hd]
      simp [hq]
  | some b0 =>
    have hfst : (object_write c fmt data true disk).2 = disk := by
      simp only [object_write, hd]
      simp
    refine ⟨?_, fun habs => ?_, fun b hb => hfst⟩
    · rw [hfst]
      exact hfst
    · simp [hd] at habs

/-- C4: construct a blob from p, serialize, deserialize the result: the
    final serialize output is p again. -/
theorem blob_roundtrip (p : List Nat) :
    ∃ b : List Nat, (gitBlobNew (some p)).serializeB = Except.ok b ∧
      (gitBlobNew (some b)).serializeB = Except.ok p :=
  ⟨p, rfl, rfl⟩

/-- C5 counterexample: a hash whose fan-out directory does not exist has no
    object file at the derived path, yet object_read raises (repo_file returns
    None and os.path.isfile(None) is a TypeError) instead of returning absence. -/
theorem object_read_missing_fanout_raises :
    object_read ⟨FileKind.absent, none⟩ "0123456789abcdef0123456789abcdef01234567" =
        Except.error ArcError.typeErrorNonePath ∧
      object_read ⟨FileKind.absent, none⟩ "0123456789abcdef0123456789abcdef01234567" ≠
        Except.ok none :=
  ⟨rfl, fun h => Except.noConfusion h⟩

/-- C5 amended: object_read returns absence (None) without error when the
    fan-out directory exists as a directory and the file is missing; when the
    fan-out directory itself is absent the call instead raises a TypeError
    from os.path.isfile(None). -/
theorem object_read_not_found (fs : ObjFS) (sha : String) :
    (fs.fanoutDir = FileKind.dir → fs.objectFile = none →
        object_read fs sha = Except.ok none) ∧
      (fs.fanoutDir = FileKind.absent →
        object_read fs sha = Except.error ArcError.typeErrorNonePath) := by
  obtain ⟨fd, ofile⟩ := fs
  constructor
  · intro hd hf
    subst hd
    subst hf
    rfl
  · intro hd
    subst hd
    rfl

/-- C6 counterexample: with force set, construction still fails when the
    metadata path exists as a regular file (the config-path probe raises
    "Not a directory"), so "construction succeeds" does not hold as stated. -/
theorem gitRepository_force_file_fails :
    gitRepositoryNew ⟨FileKind.file, false, true, none⟩ true =
        Except.error ArcError.notADirectory ∧
      gitRepositoryNew ⟨FileKind.file, false, true, none⟩ true ≠ Except.ok () :=
  ⟨rfl, fun h => Except.noConfusion h⟩

/-- C6 amended: without force, construction fails with NotARepository when no
    .git directory exists, with MissingConfig when the config file is absent,
    and with UnsupportedFormatVersion when the stored format version parses
    and is not 0; with force, the three checks are skipped and construction
    succeeds whenever the metadata path is not an existing non-directory and
    any existing config file is one configparser can parse — a regular file at
    the metadata path still fails the config-path probe, and an existing
    malformed config still fails inside conf.read, force notwithstanding. -/
theorem gitRepository_open_checks (fs : RepoFS) (v : Int) :
    (fs.gitdir ≠ FileKind.dir →
        gitRepositoryNew fs false = Except.error ArcError.notARepository) ∧
      (fs.gitdir = FileKind.dir → fs.configExists = false →
        gitRepositoryNew fs false = Except.error ArcError.missingConfig) ∧
      (fs.gitdir = FileKind.dir → fs.configExists = true → fs.configParses = true →
        fs.configVersion = some v → v ≠ 0 →
        gitRepositoryNew fs false = Except.error ArcError.unsupportedFormatVersion) ∧
      (fs.gitdir ≠ FileKind.file → (fs.configExists = true → fs.configParses = true) →
        gitRepositoryNew fs true = Except.ok ()) ∧
      (fs.gitdir = FileKind.dir → fs.configExists = true → fs.configParses = false →
        gitRepositoryNew fs true = Except.error ArcError.configParseError) := by
  obtain ⟨g, ce, cp, cv⟩ := fs
  refine ⟨?_, ?_, ?_, ?_, ?_⟩
  · intro h
    cases g with
    | dir => exact absurd rfl h
    | file => rfl
    | absent => rfl
  · intro hg hc
    subst hg
    subst hc
    rfl
  · intro hg hc hp hv hne
    subst hg
    subst hc
    subst hp
    subst hv
    simp only [gitRepositoryNew, repoFileConfigProbe]
    simp only [Bool.and_self, Bool.not_true, if_true]
    rw [if_pos hne]
    simp
  · intro h hcp
    cases g with
    | file => exact absurd rfl h
    | absent => rfl
    | dir =>
      cases ce with
      | false => rfl
      | true =>
        have := hcp rfl
        subst this
        rfl
  · intro hg hc hp
    subst hg
    subst hc
    subst hp
    rfl

/-- C7: what the creation guard actually does. On an existing directory with
    entries but no .git, os.listdir is evaluated on the nonexistent .git (the
    existence test is negated) and raises FileNotFoundError; on an existing
    regular file the guard raises "not a directory" as claimed; no filesystem
    state at all makes the guard raise NotEmpty. -/
theorem repo_create_guard_behavior :
    repo_create_checks ⟨FileKind.dir, FileKind.absent, [], false, true⟩ =
        Except.error ArcError.fileNotFoundError ∧
      repo_create_checks ⟨FileKind.file, FileKind.absent, [], false, true⟩ =
        Except.error ArcError.notADirectory ∧
      ∀ fs : CreateFS, repo_create_checks fs ≠ Except.error ArcError.notEmpty := by
  refine ⟨rfl, rfl, ?_⟩
  intro fs h
  obtain ⟨w, g, e, ce, cp⟩ := fs
  cases w <;> cases g <;> cases ce <;> cases cp <;>
    simp [repo_create_checks, gitRepositoryNew, repoFileConfigProbe, listdirGitdir] at h

/-- C7 witness: concrete guard runs, including that a nonempty .git directory
    passes the guard rather than raising NotEmpty. -/
theorem repo_create_guard_behavior_witness :
    repo_create_checks ⟨FileKind.dir, FileKind.absent, [], false, true⟩ =
        Except.error ArcError.fileNotFoundError ∧
      repo_create_checks ⟨FileKind.dir, FileKind.dir, ["HEAD"], true, true⟩ ≠
        Except.error ArcError.notEmpty :=
  ⟨repo_create_guard_behavior.1, repo_create_guard_behavior.2.2 _⟩

/-- C8: hashing the empty payload as a blob with no repository yields the
    well-known empty-blob identifier and leaves the store untouched. -/
theorem empty_blob_hash (c : List Nat → List Nat) (disk : Store) :
    (gitBlobNew (some [])).serializeB = Except.ok [] ∧
      (object_write c blobFmt [] false disk).1 =
        "e69de29bb2d1d6434b8b29ae775ad8c2e48c5391" ∧
      (object_write c blobFmt [] false disk).2 = disk := by
  exact ⟨rfl, rfl, rfl⟩

/-- C9 counterexample: serialize() on a default-constructed blob does not
    return the empty byte sequence; the attribute read fails. -/
theorem default_blob_serialize_fails :
    (gitBlobNew none).serializeB = Except.error ArcError.attributeError ∧
      (gitBlobNew none).serializeB ≠ Except.ok [] :=
  ⟨rfl, fun h => Except.noConfusion h⟩

/-- C9 amended: default construction runs the initializer GitBlob inherits
    from GitObject, a no-op, so the payload attribute stays unset and
    serialize() raises AttributeError instead of returning bytes. -/
theorem default_blob_state :
    gitBlobNew none = { blobdata := none } ∧
      (gitBlobNew none).serializeB = Except.error ArcError.attributeError :=
  ⟨rfl, rfl⟩

/-- C10: on a well-formed stored object (declared length equals payload
    length), the tags commit, tree and tag dispatch to classes that are never
    defined, raising NameError; only the blob tag decodes successfully; any
    other tag fails with UnknownObjectType. -/
theorem object_read_undefined_dispatch (sha : String) (pre mid rest : List Nat)
    (hpre : ∀ a ∈ pre, a ≠ 32) (hparse : parseDecimal mid = some rest.length) :
    (pre = commitFmt ∨ pre = treeFmt ∨ pre = tagFmt →
        object_read ⟨FileKind.dir, some (pre ++ 32 :: (mid ++ 0 :: rest))⟩ sha =
          Except.error ArcError.nameErrorUndefined) ∧
      (pre = blobFmt →
        object_read ⟨FileKind.dir, some (pre ++ 32 :: (mid ++ 0 :: rest))⟩ sha =
          Except.ok (some (gitBlobNew (some rest)))) ∧
      (pre ≠ commitFmt → pre ≠ treeFmt → pre ≠ tagFmt → pre ≠ blobFmt →
        object_read ⟨FileKind.dir, some (pre ++ 32 :: (mid ++ 0 :: rest))⟩ sha =
          Except.error (ArcError.unknownType sha)) := by
  have hf := object_read_raw_framed sha pre mid rest rest.length hpre hparse
  rw [if_neg (not_not_intro rfl)] at hf
  refine ⟨?_, ?_, ?_⟩
  · intro h
    show (object_read_raw sha (pre ++ 32 :: (mid ++ 0 :: rest))).map some = _
    rcases h with h | h | h <;> subst h <;> rw [hf] <;>
      simp [Except.map, commitFmt, treeFmt, tagFmt, blobFmt]
  · intro h
    subst h
    show (object_read_raw sha (blobFmt ++ 32 :: (mid ++ 0 :: rest))).map some = _
    rw [hf]
    simp [Except.map, commitFmt, treeFmt, tagFmt, blobFmt]
  · intro h1 h2 h3 h4
    show (object_read_raw sha (pre ++ 32 :: (mid ++ 0 :: rest))).map some = _
    rw [hf, if_neg h1, if_neg h2, if_neg h3, if_neg h4]
    rfl

/-- C10 witness: a well-formed stored tree raises NameError; a well-formed
    stored blob decodes. -/
theorem object_read_undefined_dispatch_witness :
    object_read ⟨FileKind.dir, some ([116, 114, 101, 101] ++ 32 :: ([48] ++ 0 :: []))⟩
        "ab" = Except.error ArcError.nameErrorUndefined ∧
      object_read ⟨FileKind.dir, some ([98, 108, 111, 98] ++ 32 :: ([48] ++ 0 :: []))⟩
        "ab" = Except.ok (some (gitBlobNew (some []))) :=
  ⟨(object_read_undefined_dispatch "ab" [116, 114, 101, 101] [48] []
      (by decide) (by decide)).1 (Or.inr (Or.inl rfl)),
    (object_read_undefined_dispatch "ab" [98, 108, 111, 98] [48] []
      (by decide) (by decide)).2.1 rfl⟩
